import Mathlib

/-!
Verification of the `liv20/acnportal` charging-network simulator against its
natural-language specification.

The development shallowly embeds the Python sources:
* `src/acnportal/acnsim/models/ev.py` (the modern `EV` session model),
* `src/acnportal/acnsim/interface.py` (`SessionInfo`, `Interface`),
* `src/acnsim/models/evse.py` (the legacy `EVSE` / `FiniteRatesEVSE`),
with real numbers modelled as `ℚ` (Python floats are treated as exact reals;
every concrete input used below is far from any rounding boundary).
Machine exceptions are modelled with `Except`; Python division is total on
`ℚ` with `x / 0 = 0`, which is never hit on the executions considered.
-/

/-! ## EV (src/acnportal/acnsim/models/ev.py)

The `EV` class owns a battery object whose type and dynamics are external to
`ev.py`; the embedding is therefore generic over the battery state `β`, and
`EV.charge` / `EV.reset` take the battery's `charge` / `reset` methods as
explicit function arguments. -/

structure EV (β : Type) where
  arrival : ℤ
  departure : ℤ
  estimated_departure : ℤ
  requested_energy : ℚ
  session_id : String
  station_id : String
  battery : β
  energy_delivered : ℚ
  current_charging_rate : ℚ
  deriving Repr, DecidableEq

/-- `EV.__init__` (ev.py:17-32).  There is no validation: every argument
combination yields an `EV`.  `estimated_departure` defaults to `departure`
when absent; `energy_delivered` and `current_charging_rate` start at 0. -/
def EV.init {β : Type} (arrival departure : ℤ) (requested_energy : ℚ)
    (station_id session_id : String) (battery : β)
    (estimated_departure : Option ℤ) : EV β :=
  { arrival := arrival
    departure := departure
    estimated_departure := estimated_departure.getD departure
    requested_energy := requested_energy
    session_id := session_id
    station_id := station_id
    battery := battery
    energy_delivered := 0
    current_charging_rate := 0 }

/-- `EV.remaining_demand` (ev.py:89-95). -/
def EV.remaining_demand {β : Type} (ev : EV β) : ℚ :=
  ev.requested_energy - ev.energy_delivered

/-- `EV.fully_charged` (ev.py:97-100): `not (remaining_demand > 1e-3)`. -/
def EV.fully_charged {β : Type} (ev : EV β) : Bool :=
  ! decide (ev.remaining_demand > 1 / 1000)

/-- `EV.charge` (ev.py:114-128).  `batteryCharge` is the battery's `charge`
method, returning the achieved rate together with the updated battery state.
The pair returned is (achieved rate, updated EV). -/
def EV.charge {β : Type} (batteryCharge : ℚ → ℚ → ℚ → β → ℚ × β)
    (pilot voltage period : ℚ) (ev : EV β) : ℚ × EV β :=
  let r := batteryCharge pilot voltage period ev.battery
  (r.1,
    { ev with
      battery := r.2
      energy_delivered := ev.energy_delivered + (r.1 * voltage) / 1000 * (period / 60)
      current_charging_rate := r.1 })

/-- `EV.reset` (ev.py:130-137).  `batteryReset` is the battery's `reset`
method.  Only `energy_delivered` and the battery state are touched. -/
def EV.reset {β : Type} (batteryReset : β → β) (ev : EV β) : EV β :=
  { ev with energy_delivered := 0, battery := batteryReset ev.battery }

/-! ## C8 and C10 -/

/-- **C8** (confirmed).  For every EV, battery dynamics, pilot, voltage and
period, `EV.charge` obtains the achieved rate `r` from the battery's `charge`,
increments `energy_delivered` by exactly `r * voltage / 1000 * (period / 60)`,
stores `r` in `current_charging_rate`, leaves every other field (and the
identity/timing data) unchanged, and returns `r` to the caller. -/
theorem ev_charge_spec {β : Type} (batteryCharge : ℚ → ℚ → ℚ → β → ℚ × β)
    (pilot voltage period : ℚ) (ev : EV β) :
    (EV.charge batteryCharge pilot voltage period ev).1
      = (batteryCharge pilot voltage period ev.battery).1 ∧
    (EV.charge batteryCharge pilot voltage period ev).2.energy_delivered
      = ev.energy_delivered
        + (batteryCharge pilot voltage period ev.battery).1 * voltage / 1000 * (period / 60) ∧
    (EV.charge batteryCharge pilot voltage period ev).2.current_charging_rate
      = (batteryCharge pilot voltage period ev.battery).1 ∧
    (EV.charge batteryCharge pilot voltage period ev).2.battery
      = (batteryCharge pilot voltage period ev.battery).2 ∧
    (EV.charge batteryCharge pilot voltage period ev).2.requested_energy
      = ev.requested_energy := by
  refine ⟨rfl, ?_, rfl, rfl, rfl⟩
  show ev.energy_delivered + _ * voltage / 1000 * (period / 60) = _
  ring

/-- **C10** (confirmed).  `EV.reset` zeroes `energy_delivered` and resets the
battery, while `current_charging_rate` and all identity and timing fields are
left exactly as they were. -/
theorem ev_reset_spec {β : Type} (batteryReset : β → β) (ev : EV β) :
    (EV.reset batteryReset ev).energy_delivered = 0 ∧
    (EV.reset batteryReset ev).battery = batteryReset ev.battery ∧
    (EV.reset batteryReset ev).current_charging_rate = ev.current_charging_rate ∧
    (EV.reset batteryReset ev).arrival = ev.arrival ∧
    (EV.reset batteryReset ev).departure = ev.departure ∧
    (EV.reset batteryReset ev).estimated_departure = ev.estimated_departure ∧
    (EV.reset batteryReset ev).requested_energy = ev.requested_energy ∧
    (EV.reset batteryReset ev).station_id = ev.station_id ∧
    (EV.reset batteryReset ev).session_id = ev.session_id :=
  ⟨rfl, rfl, rfl, rfl, rfl, rfl, rfl, rfl, rfl⟩

/-! ## Battery (spec-modelled) -/

/-- Modelled from the spec: the `Battery` class is not under `src/` (only its
caller `EV` in ev.py is).  Spec §3: "`capacity`, `current_charge`,
`max_charging_power`, `current_charging_power`. Invariant:
`0 ≤ current_charge ≤ capacity`. Charging dynamics are a pluggable function of
pilot, voltage, period, and current state-of-charge, returning an achievable
rate ≤ requested pilot and ≤ max_charging_power"; §4.4: "`Battery.charge` is
the sole place physical limits (capacity headroom, power ceiling) are
enforced". -/
structure Battery where
  capacity : ℚ
  init_charge : ℚ
  current_charge : ℚ
  max_charging_power : ℚ
  current_charging_power : ℚ
  deriving Repr, DecidableEq

/-- Modelled from the spec: `Battery.charge(pilot, voltage, period)` converts
the pilot to power, caps it by the power ceiling and by the rate that would
exactly fill the remaining capacity within this period, stores the resulting
charge, and returns the achieved rate in amps. -/
def Battery.charge (pilot voltage period : ℚ) (b : Battery) : ℚ × Battery :=
  let pilot_power := pilot * voltage / 1000
  let charge_power :=
    min pilot_power
      (min b.max_charging_power ((b.capacity - b.current_charge) / (period / 60)))
  (charge_power * 1000 / voltage,
    { b with
      current_charge := b.current_charge + charge_power * (period / 60)
      current_charging_power := charge_power })

/-- Modelled from the spec (§4.4): `Battery.reset` restores the battery state
to initialization. -/
def Battery.reset (b : Battery) : Battery :=
  { b with current_charge := b.init_charge, current_charging_power := 0 }

/-- Spec §3 battery invariant, plus non-negativity of the configuration
parameters. -/
def Battery.wf (b : Battery) : Prop :=
  0 ≤ b.init_charge ∧ b.init_charge ≤ b.capacity ∧
    0 ≤ b.current_charge ∧ b.current_charge ≤ b.capacity ∧
    0 ≤ b.max_charging_power

/-- One observable transition of an `EV` after construction: a `charge()` call
(with the non-negative pilot, voltage and period the simulator supplies) or a
`reset()` call. -/
inductive EVStep : EV Battery → EV Battery → Prop
  | charge (pilot voltage period : ℚ) (ev : EV Battery)
      (hp : 0 ≤ pilot) (hv : 0 ≤ voltage) (hq : 0 ≤ period) :
      EVStep ev (EV.charge Battery.charge pilot voltage period ev).2
  | reset (ev : EV Battery) : EVStep ev (EV.reset Battery.reset ev)

/-- States reachable from a given initial `EV` by `charge()`/`reset()` calls. -/
inductive EVReachable (ev0 : EV Battery) : EV Battery → Prop
  | refl : EVReachable ev0 ev0
  | step {ev ev' : EV Battery} :
      EVReachable ev0 ev → EVStep ev ev' → EVReachable ev0 ev'

lemma add_mul_le_of_le_div {cp cap c p : ℚ} (hcple : cp ≤ (cap - c) / (p / 60))
    (hp : 0 ≤ p) (hle : c ≤ cap) : c + cp * (p / 60) ≤ cap := by
  rcases eq_or_lt_of_le hp with hz | hpos
  · rw [← hz]
    simpa using hle
  · have h60 : (0:ℚ) < p / 60 := by positivity
    have hmul := mul_le_mul_of_nonneg_right hcple (le_of_lt h60)
    rw [div_mul_cancel₀ _ (ne_of_gt h60)] at hmul
    linarith

lemma battery_charge_wf (pilot voltage period : ℚ) (b : Battery) (hb : b.wf)
    (hp : 0 ≤ pilot) (hv : 0 ≤ voltage) (hq : 0 ≤ period) :
    0 ≤ (Battery.charge pilot voltage period b).1 ∧
      (Battery.charge pilot voltage period b).2.wf := by
  obtain ⟨h1, h2, h3, h4, h5⟩ := hb
  have hpp : 0 ≤ pilot * voltage / 1000 := by positivity
  have hhr : 0 ≤ (b.capacity - b.current_charge) / (period / 60) :=
    div_nonneg (by linarith) (by positivity)
  have hcp : 0 ≤ min (pilot * voltage / 1000)
      (min b.max_charging_power ((b.capacity - b.current_charge) / (period / 60))) :=
    le_min hpp (le_min h5 hhr)
  have hcple : min (pilot * voltage / 1000)
      (min b.max_charging_power ((b.capacity - b.current_charge) / (period / 60)))
      ≤ (b.capacity - b.current_charge) / (period / 60) :=
    le_trans (min_le_right _ _) (min_le_right _ _)
  constructor
  · show 0 ≤ min (pilot * voltage / 1000)
        (min b.max_charging_power ((b.capacity - b.current_charge) / (period / 60)))
        * 1000 / voltage
    exact div_nonneg (mul_nonneg hcp (by norm_num)) hv
  · show 0 ≤ b.init_charge ∧ b.init_charge ≤ b.capacity ∧
        0 ≤ b.current_charge + min (pilot * voltage / 1000)
          (min b.max_charging_power ((b.capacity - b.current_charge) / (period / 60)))
          * (period / 60) ∧
        b.current_charge + min (pilot * voltage / 1000)
          (min b.max_charging_power ((b.capacity - b.current_charge) / (period / 60)))
          * (period / 60) ≤ b.capacity ∧
        0 ≤ b.max_charging_power
    refine ⟨h1, h2, ?_, ?_, h5⟩
    · have hnn : 0 ≤ min (pilot * voltage / 1000)
          (min b.max_charging_power ((b.capacity - b.current_charge) / (period / 60)))
          * (period / 60) := mul_nonneg hcp (by positivity)
      linarith
    · exact add_mul_le_of_le_div hcple hq h4

/-- Inductive invariant for reachable `EV` states: delivered energy is
non-negative and the battery stays well-formed. -/
def EVInv (ev : EV Battery) : Prop :=
  0 ≤ ev.energy_delivered ∧ ev.battery.wf

lemma evstep_inv {ev ev' : EV Battery} (h : EVInv ev) (hs : EVStep ev ev') :
    EVInv ev' := by
  obtain ⟨he, hb⟩ := h
  cases hs with
  | charge pilot voltage period ev hp hv hq =>
      obtain ⟨hr, hb'⟩ := battery_charge_wf pilot voltage period ev.battery hb hp hv hq
      refine ⟨?_, hb'⟩
      show 0 ≤ ev.energy_delivered
        + (Battery.charge pilot voltage period ev.battery).1 * voltage / 1000 * (period / 60)
      have : 0 ≤ (Battery.charge pilot voltage period ev.battery).1 * voltage / 1000
          * (period / 60) := by positivity
      linarith
  | reset ev =>
      refine ⟨le_refl 0, ?_⟩
      obtain ⟨h1, h2, _, _, h5⟩ := hb
      exact ⟨h1, h2, h1, h2, h5⟩

lemma evreachable_inv {ev0 ev : EV Battery} (h0 : EVInv ev0)
    (hr : EVReachable ev0 ev) : EVInv ev := by
  induction hr with
  | refl => exact h0
  | step _ hs ih => exact evstep_inv ih hs

/-! ## C1 -/

/-- **C1** (corrected, amended).  For every EV state reachable from a freshly
constructed EV (well-formed battery, zero energy delivered) by `charge()` and
`reset()` calls, `energy_delivered` stays non-negative, so a `reset()` never
strictly decreases `remaining_demand`: `remaining_demand` strictly decreases
only through `charge()`.  Non-negativity of `remaining_demand` itself does
not hold (see the counterexample): `Battery.charge` caps the achieved rate by
battery capacity and power, not by the session's `requested_energy`. -/
theorem ev_remaining_demand_amended (ev0 ev : EV Battery)
    (hwf : ev0.battery.wf) (h0 : ev0.energy_delivered = 0)
    (hr : EVReachable ev0 ev) :
    0 ≤ ev.energy_delivered ∧
      ev.remaining_demand ≤ (EV.reset Battery.reset ev).remaining_demand := by
  have hinv : EVInv ev := evreachable_inv ⟨le_of_eq h0.symm, hwf⟩ hr
  refine ⟨hinv.1, ?_⟩
  show ev.requested_energy - ev.energy_delivered ≤ ev.requested_energy - 0
  linarith [hinv.1]

/-- Witness for C1's amended theorem at a concrete fresh EV. -/
theorem ev_remaining_demand_amended_witness :
    0 ≤ (EV.init 0 2 1 "S" "s1" (⟨100, 0, 0, 100, 0⟩ : Battery) none).energy_delivered ∧
      (EV.init 0 2 1 "S" "s1" (⟨100, 0, 0, 100, 0⟩ : Battery) none).remaining_demand
        ≤ (EV.reset Battery.reset
            (EV.init 0 2 1 "S" "s1" (⟨100, 0, 0, 100, 0⟩ : Battery) none)).remaining_demand :=
  ev_remaining_demand_amended _ _
    (by unfold Battery.wf; norm_num [EV.init]) rfl EVReachable.refl

/-- **C1** counterexample.  A single `charge()` call on a freshly constructed
EV requesting 1 kWh (battery: 100 kWh capacity, 100 kW ceiling, empty) with
pilot 32 A, voltage 240 V, period 60 min delivers 7.68 kWh, a reachable state
whose `remaining_demand` is negative — refuting "remaining_demand is
non-negative for all reachable states". -/
theorem ev_remaining_demand_counterexample :
    EVReachable (EV.init 0 2 1 "S" "s1" (⟨100, 0, 0, 100, 0⟩ : Battery) none)
      (EV.charge Battery.charge 32 240 60
        (EV.init 0 2 1 "S" "s1" (⟨100, 0, 0, 100, 0⟩ : Battery) none)).2 ∧
    (EV.charge Battery.charge 32 240 60
      (EV.init 0 2 1 "S" "s1" (⟨100, 0, 0, 100, 0⟩ : Battery) none)).2.remaining_demand < 0 := by
  constructor
  · exact EVReachable.step EVReachable.refl
      (EVStep.charge 32 240 60 _ (by norm_num) (by norm_num) (by norm_num))
  · norm_num [EV.charge, Battery.charge, EV.init, EV.remaining_demand]

/-! ## SessionInfo (src/acnportal/acnsim/interface.py:10-113) -/

/-- `SessionInfo.remaining_time` (interface.py:108-113):
`max (min (departure - arrival) (departure - current_time)) 0`. -/
def remaining_time_calc (arrival departure current_time : ℤ) : ℤ :=
  max (min (departure - arrival) (departure - current_time)) 0

structure SessionInfo where
  station_id : String
  session_id : String
  requested_energy : ℚ
  energy_delivered : ℚ
  arrival : ℤ
  departure : ℤ
  estimated_departure : ℤ
  current_time : ℤ
  min_rates : List ℚ
  max_rates : List (WithTop ℚ)
  deriving Repr, DecidableEq

/-- The scalar-or-list handling of `min_rates` / `max_rates` in
`SessionInfo.__init__` (interface.py:76-98): a scalar is replicated
`remaining_time` times, a list must have length `remaining_time`. -/
def expand_rates {α : Type} (rt : ℕ) (msg : String) :
    Sum α (List α) → Except String (List α)
  | Sum.inl x => Except.ok (List.replicate rt x)
  | Sum.inr xs => if xs.length = rt then Except.ok xs else Except.error msg

/-- `SessionInfo.__init__` (interface.py:36-98).  Raising `ValueError` is
modelled by `Except.error`; `estimated_departure = None` defaults to
`departure` before the second check. -/
def SessionInfo.init (station_id session_id : String)
    (requested_energy energy_delivered : ℚ) (arrival departure : ℤ)
    (estimated_departure : Option ℤ) (current_time : ℤ)
    (min_rates : Sum ℚ (List ℚ))
    (max_rates : Sum (WithTop ℚ) (List (WithTop ℚ))) :
    Except String SessionInfo :=
  if departure ≤ arrival then
    Except.error "Departure must be later than arrival."
  else if estimated_departure.getD departure ≤ arrival then
    Except.error "Departure must be later than arrival. (estimated)"
  else
    match expand_rates (remaining_time_calc arrival departure current_time).toNat
        "min_rates must be a scalar or list-like with length equal to the remaining_time of the session."
        min_rates with
    | Except.error e => Except.error e
    | Except.ok mins =>
      match expand_rates (remaining_time_calc arrival departure current_time).toNat
          "max_rates must be a scalar or list-like with length equal to the remaining_time of the session."
          max_rates with
      | Except.error e => Except.error e
      | Except.ok maxs =>
        Except.ok
          { station_id := station_id
            session_id := session_id
            requested_energy := requested_energy
            energy_delivered := energy_delivered
            arrival := arrival
            departure := departure
            estimated_departure := estimated_departure.getD departure
            current_time := current_time
            min_rates := mins
            max_rates := maxs }

/-! ## C3 -/

/-- **C3** (corrected, amended).  `SessionInfo` construction fails whenever
`departure ≤ arrival` or `estimated_departure ≤ arrival`, and every
successfully constructed `SessionInfo` satisfies `arrival < departure` and
`arrival < estimated_departure`; `EV.__init__`, by contrast, performs no
validation at all: it always succeeds and stores the given timing fields
verbatim (see the counterexample for an `EV` built with
`departure ≤ arrival`). -/
theorem session_info_validation_amended {β : Type}
    (station_id session_id : String)
    (requested_energy energy_delivered : ℚ) (arrival departure : ℤ)
    (estimated_departure : Option ℤ) (current_time : ℤ)
    (min_rates : Sum ℚ (List ℚ))
    (max_rates : Sum (WithTop ℚ) (List (WithTop ℚ))) (battery : β) :
    (∀ s, SessionInfo.init station_id session_id requested_energy
        energy_delivered arrival departure estimated_departure current_time
        min_rates max_rates = Except.ok s →
      s.arrival < s.departure ∧ s.arrival < s.estimated_departure) ∧
    (departure ≤ arrival →
      SessionInfo.init station_id session_id requested_energy
        energy_delivered arrival departure estimated_departure current_time
        min_rates max_rates
      = Except.error "Departure must be later than arrival.") ∧
    (arrival < departure → estimated_departure.getD departure ≤ arrival →
      SessionInfo.init station_id session_id requested_energy
        energy_delivered arrival departure estimated_departure current_time
        min_rates max_rates
      = Except.error "Departure must be later than arrival. (estimated)") ∧
    ((EV.init arrival departure requested_energy station_id session_id battery
        estimated_departure).arrival = arrival ∧
      (EV.init arrival departure requested_energy station_id session_id battery
        estimated_departure).departure = departure ∧
      (EV.init arrival departure requested_energy station_id session_id battery
        estimated_departure).estimated_departure
        = estimated_departure.getD departure) := by
  refine ⟨?_, ?_, ?_, rfl, rfl, rfl⟩
  · intro s hs
    unfold SessionInfo.init at hs
    split at hs
    · exact absurd hs (by simp)
    · next hdep =>
      split at hs
      · exact absurd hs (by simp)
      · next hest =>
        split at hs
        · exact absurd hs (by simp)
        · split at hs
          · exact absurd hs (by simp)
          · simp only [Except.ok.injEq] at hs
            rw [← hs]
            exact ⟨lt_of_not_le hdep, lt_of_not_le hest⟩
  · intro h
    unfold SessionInfo.init
    simp [h]
  · intro h1 h2
    unfold SessionInfo.init
    rw [if_neg (not_le.mpr h1), if_pos h2]

/-- Witness for C3's amended theorem: `SessionInfo` with `arrival = 5`,
`departure = 3` errors at construction. -/
theorem session_info_validation_amended_witness :
    SessionInfo.init "S" "s1" 10 0 5 3 none 0 (Sum.inl 0) (Sum.inl ⊤)
      = Except.error "Departure must be later than arrival." :=
  (session_info_validation_amended "S" "s1" 10 0 5 3 none 0 (Sum.inl 0)
    (Sum.inl ⊤) ()).2.1 (by decide)

/-- **C3** counterexample.  The `EV` constructor performs no timing
validation: `EV(arrival=5, departure=3, ...)` constructs successfully and the
resulting EV has `departure < arrival`, refuting both "fails at construction
time" and "for every successfully constructed EV, departure > arrival". -/
theorem ev_init_no_validation_counterexample :
    (EV.init 5 3 10 "S" "s1" (⟨0, 0, 0, 0, 0⟩ : Battery) none).departure
      < (EV.init 5 3 10 "S" "s1" (⟨0, 0, 0, 0, 0⟩ : Battery) none).arrival := by
  decide

/-! ## EVSE (src/acnsim/models/evse.py)

The legacy `EVSE` hierarchy: the base class validates a continuous range
`min_rate ≤ pilot ≤ max_rate` (with `max_rate` defaulting to `float('inf')`,
modelled by `WithTop ℚ`), and `FiniteRatesEVSE` overrides `_valid_rate` with
`np.any(np.isclose(pilot, allowable_rates, atol=1e-3))` (evse.py:164).  The
subclass relationship is embedded as a tagged variant. -/

inductive RateSpec
  | continuous (min_rate : ℚ) (max_rate : WithTop ℚ)
  | finite (allowable_rates : List ℚ)
  deriving DecidableEq

/-- `np.isclose(a, b, atol)` for scalars: `|a - b| ≤ atol + rtol * |b|`,
where numpy's default relative tolerance `rtol = 1e-5` applies because
evse.py:164 passes only `atol`. -/
def np_isclose (atol rtol a b : ℚ) : Bool :=
  decide (|a - b| ≤ atol + rtol * |b|)

/-- `EVSE._valid_rate` (evse.py:100-109) for the continuous variant and
`FiniteRatesEVSE._valid_rate` (evse.py:154-164) for the discrete variant. -/
def valid_rate : RateSpec → ℚ → Bool
  | RateSpec.continuous lo hi, pilot =>
      decide (lo ≤ pilot ∧ (pilot : WithTop ℚ) ≤ hi)
  | RateSpec.finite rates, pilot =>
      rates.any (np_isclose (1 / 1000) (1 / 100000) pilot)

structure EVSEState (E : Type) where
  station_id : String
  rate_spec : RateSpec
  current_pilot : ℚ
  ev : Option E
  deriving DecidableEq

inductive EVSEError
  | invalidRate (pilot : ℚ) (station_id : String)
  | stationOccupied (station_id : String)
  deriving Repr, DecidableEq

/-- `EVSE.set_pilot` (evse.py:76-98).  On a valid pilot it stores the pilot
and, when an EV is attached, calls that EV's `charge` method **with the pilot
as its only argument** (`self._ev.charge(pilot)`, evse.py:96); `charge` is the
attached EV's charge method, abstract here.  On an invalid pilot it raises
`InvalidRateError` naming the pilot and the station. -/
def EVSEState.set_pilot {E : Type} (charge : ℚ → E → E) (s : EVSEState E)
    (pilot : ℚ) : Except EVSEError (EVSEState E) :=
  if valid_rate s.rate_spec pilot then
    Except.ok { s with current_pilot := pilot, ev := s.ev.map (charge pilot) }
  else
    Except.error (EVSEError.invalidRate pilot s.station_id)

/-- `EVSE.plugin` (evse.py:111-127): attaches when `self.ev is None`, raises
`StationOccupiedError` otherwise — whatever EV is attached. -/
def EVSEState.plugin {E : Type} (s : EVSEState E) (e : E) :
    Except EVSEError (EVSEState E) :=
  match s.ev with
  | none => Except.ok { s with ev := some e }
  | some _ => Except.error (EVSEError.stationOccupied s.station_id)

/-- `EVSE.unplug` (evse.py:129-138): unconditionally detaches and resets
`current_pilot` to 0. -/
def EVSEState.unplug {E : Type} (s : EVSEState E) : EVSEState E :=
  { s with ev := none, current_pilot := 0 }

/-! ## C4 -/

/-- **C4** (corrected, amended).  For a discrete-rate station, pilot 0 is
accepted exactly when some member of `allowable_rates` is within the
`np.isclose` tolerance of 0; in particular it is accepted whenever 0 is a
member of `allowable_rates`.  It is **not** implicitly allowed: when no rate
is close to 0 the pilot 0 is rejected (see the counterexample). -/
theorem finite_zero_pilot_amended (rates : List ℚ) (h : (0:ℚ) ∈ rates) :
    valid_rate (RateSpec.finite rates) 0 = true := by
  simp only [valid_rate, List.any_eq_true]
  exact ⟨0, h, by simp [np_isclose]⟩

/-- Witness for C4's amended theorem on the ClipperCreek rate set
(evse.py:25). -/
theorem finite_zero_pilot_amended_witness :
    valid_rate (RateSpec.finite [0, 8, 16, 24, 32]) 0 = true :=
  finite_zero_pilot_amended [0, 8, 16, 24, 32] (by simp)

/-- **C4** counterexample.  With `allowable_rates = [8, 16, 24, 32]` (0 not a
member), `FiniteRatesEVSE._valid_rate` rejects pilot 0 — refuting "a pilot of
0 is always accepted as valid, even when 0 is not an element of
allowable_rates". -/
theorem finite_zero_pilot_counterexample :
    valid_rate (RateSpec.finite [8, 16, 24, 32]) 0 = false := by
  norm_num [valid_rate, np_isclose, abs_le]

/-! ## C6 -/

/-- The claim's reading of the discrete validity check, following the spec's
words: membership in `allowable_rates` within an **absolute** tolerance of
1e-3 only. -/
def valid_rate_claim (rates : List ℚ) (pilot : ℚ) : Bool :=
  rates.any fun r => decide (|pilot - r| ≤ 1 / 1000)

/-- **C6** (corrected, amended).  A pilot is valid for a discrete-rate
station iff it is within `1e-3 + 1e-5 * |r|` of some member `r` of
`allowable_rates` — numpy's `isclose` combines the passed `atol = 1e-3` with
its default `rtol = 1e-5`, so the tolerance is not purely absolute.  With
`allowable_rates = [0, 8, 16, 24, 32]`: pilot 8.0 is accepted, 8.0009 is
accepted, and 8.1 is rejected, as the claim's examples state. -/
theorem finite_valid_rate_amended :
    (∀ (rates : List ℚ) (pilot : ℚ),
      valid_rate (RateSpec.finite rates) pilot = true ↔
        ∃ r ∈ rates, |pilot - r| ≤ 1 / 1000 + 1 / 100000 * |r|) ∧
    valid_rate (RateSpec.finite [0, 8, 16, 24, 32]) 8 = true ∧
    valid_rate (RateSpec.finite [0, 8, 16, 24, 32]) (8 + 9 / 10000) = true ∧
    valid_rate (RateSpec.finite [0, 8, 16, 24, 32]) (81 / 10) = false := by
  refine ⟨?_, by norm_num [valid_rate, np_isclose, abs_le],
    by norm_num [valid_rate, np_isclose, abs_le],
    by norm_num [valid_rate, np_isclose, abs_le]⟩
  intro rates pilot
  simp [valid_rate, np_isclose, List.any_eq_true]

/-- **C6** counterexample.  Pilot 32.0012 is farther than 1e-3 from every
member of `[0, 8, 16, 24, 32]`, so the claim says it is rejected, yet the
code accepts it (it lies within `1e-3 + 1e-5 * 32` of 32) — refuting the
"absolute tolerance of 1e-3" if-and-only-if. -/
theorem finite_valid_rate_counterexample :
    valid_rate (RateSpec.finite [0, 8, 16, 24, 32]) (32 + 3 / 2500) = true ∧
      valid_rate_claim [0, 8, 16, 24, 32] (32 + 3 / 2500) = false := by
  constructor
  · norm_num [valid_rate, np_isclose, abs_le]
  · norm_num [valid_rate_claim, abs_le]

/-! ## C7 -/

/-- **C7** (corrected, amended).  `plugin(ev)` raises `StationOccupiedError`
iff **any** EV is already attached — including the very same EV (see the
counterexample) — and attaches `ev` when the station is empty.  From an empty
station, `plugin(ev1)` followed by `plugin(ev2)` raises
`StationOccupiedError`, while `plugin(ev1)`, `unplug()`, `plugin(ev2)`
succeeds; `unplug()` detaches unconditionally and resets `current_pilot`
to 0. -/
theorem evse_plugin_unplug_amended {E : Type} (s : EVSEState E) (e e1 e2 : E) :
    (s.ev = none → EVSEState.plugin s e = Except.ok { s with ev := some e }) ∧
    (∀ e0, s.ev = some e0 →
      EVSEState.plugin s e
        = Except.error (EVSEError.stationOccupied s.station_id)) ∧
    (EVSEState.unplug s = { s with ev := none, current_pilot := 0 }) ∧
    (s.ev = none →
      (EVSEState.plugin s e1).bind (fun s1 => EVSEState.plugin s1 e2)
        = Except.error (EVSEError.stationOccupied s.station_id)) ∧
    (s.ev = none →
      (EVSEState.plugin s e1).bind
          (fun s1 => EVSEState.plugin (EVSEState.unplug s1) e2)
        = Except.ok { s with current_pilot := 0, ev := some e2 }) := by
  refine ⟨?_, ?_, rfl, ?_, ?_⟩
  · intro h
    simp [EVSEState.plugin, h]
  · intro e0 h
    simp [EVSEState.plugin, h]
  · intro h
    simp [EVSEState.plugin, h, Except.bind]
  · intro h
    simp [EVSEState.plugin, EVSEState.unplug, h, Except.bind]

/-- Witness for C7's amended theorem: on a concrete empty station, the double
`plugin` raises `StationOccupiedError` and the `plugin`-`unplug`-`plugin`
sequence succeeds. -/
theorem evse_plugin_unplug_amended_witness :
    ((⟨"CA-1", RateSpec.continuous 0 ⊤, 0, none⟩ : EVSEState String).plugin "EV-1").bind
        (fun s1 => s1.plugin "EV-2")
      = Except.error (EVSEError.stationOccupied "CA-1") ∧
    ((⟨"CA-1", RateSpec.continuous 0 ⊤, 0, none⟩ : EVSEState String).plugin "EV-1").bind
        (fun s1 => s1.unplug.plugin "EV-2")
      = Except.ok ⟨"CA-1", RateSpec.continuous 0 ⊤, 0, some "EV-2"⟩ :=
  ⟨(evse_plugin_unplug_amended ⟨"CA-1", RateSpec.continuous 0 ⊤, 0, none⟩
      "x" "EV-1" "EV-2").2.2.2.1 rfl,
    (evse_plugin_unplug_amended ⟨"CA-1", RateSpec.continuous 0 ⊤, 0, none⟩
      "x" "EV-1" "EV-2").2.2.2.2 rfl⟩

/-- **C7** counterexample.  Re-plugging the **same** EV raises
`StationOccupiedError`, refuting "raises if and only if a *different* EV is
already attached". -/
theorem evse_plugin_same_ev_counterexample :
    ((⟨"CA-1", RateSpec.continuous 0 ⊤, 0, none⟩ : EVSEState String).plugin "EV-1").bind
        (fun s1 => s1.plugin "EV-1")
      = Except.error (EVSEError.stationOccupied "CA-1") := by
  rfl

/-! ## C5 -/

/-- Modelled from the spec: the legacy EV class charged by
`EVSE.set_pilot` (`acnlib/EV.py`) is not under `src/`; its callers are —
`EVSE.set_pilot` invokes `self._ev.charge(pilot)` (evse.py:96) and
`TestCase.step` invokes `ev.charge(pilot, tail=True)` (TestCase.py:47).
Following spec §4.4, `charge` delegates the achieved rate to the physical
limits — here the session's `max_rate` cap and its remaining demand, both in
amp-periods as established by the construction at TestCase.py:176-183 —
accumulates `energy_delivered`, and records `current_charging_rate`. -/
structure LegacyEV where
  max_rate : ℚ
  requested_energy : ℚ
  energy_delivered : ℚ
  current_charging_rate : ℚ
  deriving Repr, DecidableEq

def LegacyEV.remaining_demand (e : LegacyEV) : ℚ :=
  e.requested_energy - e.energy_delivered

/-- Modelled from the spec: see `LegacyEV`. -/
def LegacyEV.charge (pilot : ℚ) (e : LegacyEV) : LegacyEV :=
  let r := min pilot (min e.max_rate e.remaining_demand)
  { e with
    energy_delivered := e.energy_delivered + r
    current_charging_rate := r }

/-- The claim's reading of `set_pilot`, following the spec's words: on a valid
pilot the attached EV is charged through the **three-argument**
`EV.charge(pilot, voltage, period)` of §4.4 (the modern `EV` of
src/acnportal/acnsim/models/ev.py) at the network's voltage and period.  Kept
for comparison with the source's `EVSEState.set_pilot`. -/
def set_pilot_claim (voltage period : ℚ) (s : EVSEState (EV Battery))
    (pilot : ℚ) : Except EVSEError (EVSEState (EV Battery)) :=
  if valid_rate s.rate_spec pilot then
    Except.ok
      { s with
        current_pilot := pilot
        ev := s.ev.map fun e => (EV.charge Battery.charge pilot voltage period e).2 }
  else
    Except.error (EVSEError.invalidRate pilot s.station_id)

/-- **C5** (corrected, amended).  For every EVSE and pilot: if the pilot is
valid, `set_pilot` stores it in `current_pilot` and, when an EV is attached,
invokes the EV's `charge` with **the pilot as its only argument** (the legacy
EVSE has neither a voltage nor a period to pass); if the pilot is invalid,
`set_pilot` raises `InvalidRateError` naming the pilot and station, leaving
`current_pilot` and the attached EV unchanged. -/
theorem evse_set_pilot_amended {E : Type} (charge : ℚ → E → E)
    (s : EVSEState E) (pilot : ℚ) :
    (valid_rate s.rate_spec pilot = true →
      EVSEState.set_pilot charge s pilot
        = Except.ok { s with current_pilot := pilot, ev := s.ev.map (charge pilot) }) ∧
    (valid_rate s.rate_spec pilot = false →
      EVSEState.set_pilot charge s pilot
        = Except.error (EVSEError.invalidRate pilot s.station_id)) := by
  constructor
  · intro h
    simp [EVSEState.set_pilot, h]
  · intro h
    simp [EVSEState.set_pilot, h]

/-- Witness for C5's amended theorem: valid pilot 8 on a station with an
attached legacy EV charges it by 8 amp-periods; invalid pilot -1 errors. -/
theorem evse_set_pilot_amended_witness :
    EVSEState.set_pilot LegacyEV.charge
        ⟨"CA-1", RateSpec.continuous 0 ⊤, 0, some ⟨32, 100, 0, 0⟩⟩ 8
      = Except.ok ⟨"CA-1", RateSpec.continuous 0 ⊤, 8,
          some (LegacyEV.charge 8 ⟨32, 100, 0, 0⟩)⟩ ∧
    EVSEState.set_pilot LegacyEV.charge
        ⟨"CA-1", RateSpec.continuous 0 ⊤, 0, some ⟨32, 100, 0, 0⟩⟩ (-1)
      = Except.error (EVSEError.invalidRate (-1) "CA-1") :=
  ⟨(evse_set_pilot_amended LegacyEV.charge
      ⟨"CA-1", RateSpec.continuous 0 ⊤, 0, some ⟨32, 100, 0, 0⟩⟩ 8).1
      (by simp [valid_rate]),
    (evse_set_pilot_amended LegacyEV.charge
      ⟨"CA-1", RateSpec.continuous 0 ⊤, 0, some ⟨32, 100, 0, 0⟩⟩ (-1)).2
      (by norm_num [valid_rate])⟩

/-- **C5** counterexample.  At the source's defaults (voltage 220 V, period
1 min, TestCase.py:14), applying `set_pilot(8)` to a station with an
attached EV changes the EV's delivered energy by 8 (the one-argument legacy
`charge`), whereas the claimed invocation `EV.charge(pilot, voltage, period)`
would change it by `8·220/1000·(1/60) = 22/750` — the two disagree, so
`set_pilot` does not invoke `EV.charge(pilot, voltage, period)`. -/
theorem evse_set_pilot_counterexample :
    (EVSEState.set_pilot LegacyEV.charge
        ⟨"CA-1", RateSpec.continuous 0 ⊤, 0, some ⟨32, 100, 0, 0⟩⟩ 8).map
        (fun s => s.ev.map fun e => e.energy_delivered)
      = Except.ok (some 8) ∧
    (set_pilot_claim 220 1
        ⟨"CA-1", RateSpec.continuous 0 ⊤, 0,
          some (EV.init 0 2 100 "CA-1" "s1" ⟨1000, 0, 0, 1000, 0⟩ none)⟩ 8).map
        (fun s => s.ev.map fun e => e.energy_delivered)
      = Except.ok (some (22 / 750)) ∧
    (8 : ℚ) ≠ 22 / 750 := by
  refine ⟨?_, ?_, by norm_num⟩
  · simp only [EVSEState.set_pilot, valid_rate]
    norm_num [LegacyEV.charge, LegacyEV.remaining_demand, Except.map]
  · simp only [set_pilot_claim, valid_rate]
    norm_num [EV.charge, Battery.charge, EV.init, Except.map]

/-! ## Interface (src/acnportal/acnsim/interface.py:238-583) -/

/-- `Interface.is_feasible` (interface.py:532-583).  The network's
`ChargingNetwork.is_feasible` (not under `src/`) is abstracted as the
function argument `network_is_feasible` on the schedule matrix; the claim
under check concerns only how `Interface.is_feasible` dispatches to it.
Raising `InvalidScheduleError` is modelled by `Except.error` with the
source's message. -/
def Interface.is_feasible (station_ids : List String)
    (network_is_feasible : List (List ℚ) → Bool)
    (load_currents : List (String × List ℚ)) : Except String Bool :=
  if load_currents = [] then
    Except.ok true
  else if 1 < ((load_currents.map fun p => p.2.length).dedup).length then
    Except.error "All schedules should have the same length."
  else
    Except.ok (network_is_feasible (station_ids.map fun sid =>
      match List.lookup sid load_currents with
      | some sched => sched
      | none => List.replicate ((load_currents.map fun p => p.2.length).headD 0) 0))

/-- `Interface.last_applied_pilot_signals` (interface.py:268-291), over the
simulator state it reads: `iteration`, the pilot-signal history (station id
and time index to pilot), and the list of active EVs. -/
def Interface.last_applied_pilot_signals {β : Type} (iteration : ℤ)
    (pilot_signals : String → ℤ → ℚ) (active_evs : List (EV β)) :
    List (String × ℚ) :=
  if iteration - 1 > 0 then
    (active_evs.filter fun ev => decide (ev.arrival ≤ iteration - 1)).map
      fun ev => (ev.session_id, pilot_signals ev.station_id (iteration - 1))
  else []

/-! ## C2 -/

/-- **C2** (corrected, amended).  `Interface.is_feasible` returns `True` on
an empty mapping; it raises `InvalidScheduleError` when two schedules have
different lengths; otherwise it builds the schedule matrix over the network's
station ids — every station missing from the mapping getting an all-zero
schedule — and returns `ChargingNetwork.is_feasible` on it.  Stations named
in the mapping but unknown to the network are **silently ignored** (no
`InvalidScheduleError` is raised for them; see the counterexample). -/
theorem interface_is_feasible_amended (station_ids : List String)
    (f : List (List ℚ) → Bool) (lc : List (String × List ℚ)) :
    (lc = [] → Interface.is_feasible station_ids f lc = Except.ok true) ∧
    (lc ≠ [] → 1 < ((lc.map fun p => p.2.length).dedup).length →
      Interface.is_feasible station_ids f lc
        = Except.error "All schedules should have the same length.") ∧
    (lc ≠ [] → ((lc.map fun p => p.2.length).dedup).length ≤ 1 →
      Interface.is_feasible station_ids f lc
        = Except.ok (f (station_ids.map fun sid =>
            match List.lookup sid lc with
            | some sched => sched
            | none => List.replicate ((lc.map fun p => p.2.length).headD 0) 0))) := by
  refine ⟨?_, ?_, ?_⟩
  · intro h
    rw [Interface.is_feasible, if_pos h]
  · intro hne hlen
    rw [Interface.is_feasible, if_neg hne, if_pos hlen]
  · intro hne hlen
    rw [Interface.is_feasible, if_neg hne, if_neg (not_lt.mpr hlen)]

/-- Witness for C2's amended theorem: empty mapping returns `True`; a
two-station mapping with schedule lengths 1 and 2 errors. -/
theorem interface_is_feasible_amended_witness :
    Interface.is_feasible ["CA-1"] (fun _ => true) [] = Except.ok true ∧
    Interface.is_feasible ["CA-1", "CA-2"] (fun _ => true)
        [("CA-1", [8]), ("CA-2", [8, 8])]
      = Except.error "All schedules should have the same length." :=
  ⟨(interface_is_feasible_amended ["CA-1"] (fun _ => true) []).1 rfl,
    (interface_is_feasible_amended ["CA-1", "CA-2"] (fun _ => true)
        [("CA-1", [8]), ("CA-2", [8, 8])]).2.1 (by simp) (by simp)⟩

/-- **C2** counterexample.  A mapping naming only the station "UNKNOWN",
absent from the network (stations `["CA-1"]`), does **not** raise
`InvalidScheduleError`: the unknown station is dropped, "CA-1" gets the
all-zero schedule, and the network verdict is returned — refuting "raises
InvalidScheduleError whenever the mapping names a station unknown to the
network". -/
theorem interface_is_feasible_counterexample :
    Interface.is_feasible ["CA-1"] (fun _ => true) [("UNKNOWN", [5])]
      = Except.ok true := by
  rfl

/-! ## C9 -/

/-- **C9** (confirmed).  Whenever the simulator's `iteration` is at most 1,
`Interface.last_applied_pilot_signals` returns the empty dictionary: its
guard is `i > 0` with `i = iteration - 1`, so at iteration 1 (where `i = 0`
indexes the pilots applied at iteration 0) it still returns `{}`. -/
theorem last_applied_pilot_signals_empty {β : Type} (iteration : ℤ)
    (pilot_signals : String → ℤ → ℚ) (active_evs : List (EV β))
    (h : iteration ≤ 1) :
    Interface.last_applied_pilot_signals iteration pilot_signals active_evs
      = [] := by
  rw [Interface.last_applied_pilot_signals, if_neg]
  omega

/-- Witness for C9 at iteration 1, with an active EV that arrived at
iteration 0 and a pilot history that is nowhere zero. -/
theorem last_applied_pilot_signals_empty_witness :
    Interface.last_applied_pilot_signals 1 (fun _ _ => 16)
        [EV.init 0 2 10 "CA-1" "s1" (⟨0, 0, 0, 0, 0⟩ : Battery) none]
      = [] :=
  last_applied_pilot_signals_empty 1 (fun _ _ => 16)
    [EV.init 0 2 10 "CA-1" "s1" (⟨0, 0, 0, 0, 0⟩ : Battery) none] (le_refl 1)
